import Mathlib

/-!
Verification of the Atherlog python-service core (`src/python-service/app.py`)
against its natural-language specification.

Shallow embedding conventions:
* Python floats are modelled as exact rationals (`ℚ`).  All constants used by
  the code (0.8, 1.5, 0.5, 0.4, 0.3, 0.2, 0.1) are compared or multiplied, not
  iterated, so the exact-rational model matches the float code except on
  measure-zero representation boundaries (e.g. the float `0.1` is
  0.1000000000000000055511151231257827), which no claim exercises.
* `int(len(X) * 0.8)` is modelled as `(4 * n) / 5` in natural-number division:
  for every list length below ~10^14 the double-precision product either hits
  the exact value (n a multiple of 5) or sits far from an integer boundary, so
  Python's truncation agrees with `⌊4n/5⌋`.
* Opaque ML-library calls (`IsolationForest.fit`, `score_samples`, Keras
  `Model.fit`) are modelled as explicit oracle inputs (`FitSpec`): the
  orchestration code under verification treats their results as opaque data,
  and the claims under check are about the orchestration, not the numerics.
* A Python value that may be `None` is an `Option`; a raised-and-caught
  exception is an explicit error constructor in the response type.
-/

namespace Atherlog

/-- A log record as received by the service: a JSON object whose `level`,
`source` and `message` keys may each be absent (`log.get(...)` defaults are
applied at each use site, exactly as in `app.py`). -/
structure LogRecord where
  level : Option String
  source : Option String
  message : Option String
deriving DecidableEq

/-- One encoded feature vector: `[level_val, source_val, msg_len]`
(`preprocess_logs`, app.py lines 626-636).  Entries are float32 in the code;
all values produced there are small nonnegative integers, represented
exactly. -/
structure Features where
  lvl : ℚ
  src : ℚ
  len : ℚ
deriving DecidableEq

/-- `level_map = {'DEBUG': 0, 'INFO': 1, 'WARN': 2, 'ERROR': 3, 'FATAL': 4}`
with `.get(…, 1)`: unknown levels default to INFO's ordinal. -/
def levelOrd (lvl : String) : ℕ :=
  if lvl = "DEBUG" then 0
  else if lvl = "INFO" then 1
  else if lvl = "WARN" then 2
  else if lvl = "ERROR" then 3
  else if lvl = "FATAL" then 4
  else 1

/-- `source_map = {'api-gateway': 0, 'user-service': 1, 'db-replicator': 2,
'frontend-logger': 3, 'auth-service': 4}` with `.get(…, 0)`. -/
def sourceOrd (src : String) : ℕ :=
  if src = "api-gateway" then 0
  else if src = "user-service" then 1
  else if src = "db-replicator" then 2
  else if src = "frontend-logger" then 3
  else if src = "auth-service" then 4
  else 0

/-- Loop body of `preprocess_logs` (app.py 631-635): the feature row of one
record.  Defaults: absent level → 'INFO', absent source → 'api-gateway',
absent message → ''. -/
def encodeRecord (log : LogRecord) : Features :=
  { lvl := (levelOrd (log.level.getD "INFO") : ℚ)
    src := (sourceOrd (log.source.getD "api-gateway") : ℚ)
    len := ((log.message.getD "").length : ℚ) }

/-- `preprocess_logs` (app.py 626-636): one feature row per record, in record
order. -/
def preprocess_logs (logs : List LogRecord) : List Features :=
  logs.map encodeRecord

/-- Left fold of `max` seeded with a first column entry: the per-column
reduction performed by `np.max(X, axis=0)`. -/
def colMax (a : ℚ) (l : List ℚ) : ℚ := l.foldl max a

/-- `np.max(X, axis=0)` (app.py 794): per-column maximum.  Raises
`ValueError` on an empty array, modelled as `none`. -/
def npMaxAxis0 : List Features → Option Features
  | [] => none
  | v :: vs =>
      some { lvl := colMax v.lvl (vs.map Features.lvl)
             src := colMax v.src (vs.map Features.src)
             len := colMax v.len (vs.map Features.len) }

/-- `feature_max[feature_max == 0] = 1` (app.py 795). -/
def replaceZeros (m : Features) : Features :=
  { lvl := if m.lvl = 0 then 1 else m.lvl
    src := if m.src = 0 then 1 else m.src
    len := if m.len = 0 then 1 else m.len }

/-- Elementwise division of a feature row by the profile (`X / feature_max`,
app.py 796 and 893). -/
def divFeatures (v p : Features) : Features :=
  { lvl := v.lvl / p.lvl, src := v.src / p.src, len := v.len / p.len }

/-- Train/validation split (app.py 799-800):
`split_idx = int(len(X_scaled) * 0.8); X_scaled[:split_idx], X_scaled[split_idx:]`. -/
def splitTrainVal (xs : List Features) : List Features × List Features :=
  let splitIdx := (4 * xs.length) / 5
  (xs.take splitIdx, xs.drop splitIdx)

/-- `np.mean` of a list of rationals (callers below only apply it to
non-empty lists; `ℚ` division by a zero length would yield 0 where NumPy
yields NaN, a case no claim reaches). -/
def listMean (l : List ℚ) : ℚ := l.sum / (l.length : ℚ)

/-- Fit-quality label of the scikit-learn fallback branch (app.py 814-816):
`analysis = "Balanced"; if val_loss > train_loss * 1.5: "Overfitting";
elif train_loss > 0.5: "Underfitting"`. -/
def classifyFitSklearn (trainLoss valLoss : ℚ) : String :=
  if valLoss > trainLoss * (3/2) then "Overfitting"
  else if trainLoss > 1/2 then "Underfitting"
  else "Balanced"

/-- Fit-quality label of the TensorFlow branch (app.py 864-866): same shape
with ceiling `0.1`. -/
def classifyFitTensorflow (trainLoss valLoss : ℚ) : String :=
  if valLoss > trainLoss * (3/2) then "Overfitting"
  else if trainLoss > 1/10 then "Underfitting"
  else "Balanced"

/-- The two numeric training backends of the spec. -/
inductive Backend where
  | tensorflow
  | sklearn
deriving DecidableEq

/-- Modelled from the spec wording of the fit-quality rule, for comparison
with the code's classifier: "Overfitting" if validation loss exceeds 1.5×
train loss, otherwise "Underfitting" if train loss exceeds the
backend-specific ceiling (0.1 reconstruction/TensorFlow, 0.5 fallback),
otherwise "Balanced". -/
def fitQualitySpec (b : Backend) (trainLoss valLoss : ℚ) : String :=
  if valLoss > (3/2) * trainLoss then "Overfitting"
  else if trainLoss > (match b with | .tensorflow => 1/10 | .sklearn => 1/2) then
    "Underfitting"
  else "Balanced"

/-- A trained (or freshly constructed) model object, observed only through its
reconstruction behaviour `predict : vector → vector` (app.py 894). -/
def MLModel := Features → Features

/-- The module-level mutable state read by the scoring endpoint:
`model` and `feature_max` (app.py 44-45, 623-624). -/
structure GState where
  model : Option MLModel
  feature_max : Option Features

/-- Oracle data for the opaque ML-library steps of one `train` call.
`fresh` is the behaviour of the model object constructed before fitting
(`IsolationForest(...)` at 804 / `LogAutoencoder(...)` at 849); `raises`
tells whether the `fit` call raises; on success `fitted` is the in-place
fitted object's behaviour, `scoreSamples` is the fitted estimator's
`score_samples` (sklearn branch, 808-809), `lossLast` is
`history.history['loss'][-1]` and `histValLoss` is the last entry of
`history.history['val_loss']` as a function of whether validation data was
supplied to Keras `fit` (TensorFlow branch, 852-861). -/
structure FitSpec where
  fresh : MLModel
  raises : Bool
  fitted : MLModel
  scoreSamples : List Features → List ℚ
  lossLast : ℚ
  histValLoss : Bool → Option ℚ

/-- Response of the `/train` endpoint on the numeric path, keeping exactly
the fields the claims inspect. -/
inductive TrainResponse where
  | badRequest (msg : String)
  | internalError
  | success (framework : String) (samples : ℕ) (trainLoss valLoss : ℚ)
      (analysis : String)
deriving DecidableEq

/-- Train/validation losses of the scikit-learn fallback (app.py 808-812):
`train_scores = model.score_samples(X_train)`;
`val_scores = model.score_samples(X_val) if len(X_val) > 0 else train_scores`;
each loss is the negated mean of its scores. -/
def sklearnLosses (g : List Features → List ℚ) (xTrain xVal : List Features) :
    ℚ × ℚ :=
  let trainScores := g xTrain
  let valScores := if xVal.length > 0 then g xVal else trainScores
  (-(listMean trainScores), -(listMean valScores))

/-- The numeric (non-huggingface) path of the `/train` endpoint
(app.py 638-881), as a state transformer on the globals `model` /
`feature_max`.  `logs = none` models a JSON body whose `logs` key is `null`
(`data.get('logs', [])` yields `[]` when the key is merely absent).
`tfAvail` is the `get_tensorflow()` probe.  Hyperparameters (epochs,
batch_size, dropout) are parsed at 655-657 and feed only the opaque fit
step, so they live inside `FitSpec`.  Control flow mirrors the source:
the `logs is None` guard (651-653), preprocessing and profile fit
(793-796, where `np.max` of an empty array raises and is caught by the
outer handler at 880-881), the 80/20 split (799-800), then either the
sklearn fallback (802-828) or the TensorFlow branch (830-878); in both
branches the global `model` is rebound to the freshly constructed object
before `fit` runs, and the global `feature_max` was already overwritten at
794-795. -/
def trainNumeric (st : GState) (logs : Option (List LogRecord))
    (tfAvail : Bool) (fs : FitSpec) : TrainResponse × GState :=
  match logs with
  | none => (.badRequest "No logs provided", st)
  | some l =>
    let X := preprocess_logs l
    match npMaxAxis0 X with
    | none => (.internalError, st)
    | some rawMax =>
      let fm := replaceZeros rawMax
      let st1 : GState := { st with feature_max := some fm }
      let xScaled := X.map (fun v => divFeatures v fm)
      let (xTrain, xVal) := splitTrainVal xScaled
      if tfAvail then
        let st2 : GState := { st1 with model := some fs.fresh }
        if fs.raises then (.internalError, st2)
        else
          let st3 : GState := { st2 with model := some fs.fitted }
          let trainLoss := fs.lossLast
          let valLoss := (fs.histValLoss (xVal.length > 0)).getD trainLoss
          (.success "TensorFlow" l.length trainLoss valLoss
            (classifyFitTensorflow trainLoss valLoss), st3)
      else
        let st2 : GState := { st1 with model := some fs.fresh }
        if fs.raises then (.internalError, st2)
        else
          let st3 : GState := { st2 with model := some fs.fitted }
          let (trainLoss, valLoss) := sklearnLosses fs.scoreSamples xTrain xVal
          (.success "Scikit-learn (Isolation Forest)" l.length trainLoss valLoss
            (classifyFitSklearn trainLoss valLoss), st3)

/-- Squared-error row of `np.mean(np.power(X_norm - reconstructions, 2),
axis=1)` (app.py 895): mean over the three feature dimensions. -/
def mseRow (x r : Features) : ℚ :=
  ((x.lvl - r.lvl) ^ 2 + (x.src - r.src) ^ 2 + (x.len - r.len) ^ 2) / 3

/-- Response of the `/predict` endpoint, keeping the fields the claims
inspect.  `placeholder` is `{'analysis': {'mean_score': 0, 'message':
'Model not trained'}}` (app.py 906). -/
inductive PredictResponse where
  | badRequest (msg : String)
  | analysis (meanScore : ℚ) (highRiskCount : ℕ) (totalProcessed : ℕ)
      (individualScores : List ℚ) (modelTag : String)
  | placeholder (meanScore : ℚ) (msg : String)
deriving DecidableEq

/-- The `/predict` endpoint (app.py 883-908).  Empty-input guard
(`if not logs`, 890) runs before the model/profile lookup (892); with both
present the records are normalised by the stored profile, reconstructed by
the stored model, and scored (893-904); otherwise the placeholder is
returned (906). -/
def predict (st : GState) (logs : List LogRecord) : PredictResponse :=
  if logs = [] then .badRequest "No logs provided"
  else
    let X := preprocess_logs logs
    match st.model, st.feature_max with
    | some m, some fm =>
      let xNorm := X.map (fun v => divFeatures v fm)
      let recon := xNorm.map m
      let mse := (xNorm.zip recon).map fun p => mseRow p.1 p.2
      .analysis (listMean mse) ((mse.filter (fun s => s > 1/10)).length)
        logs.length mse "tf-autoencoder-v1"
    | _, _ => .placeholder 0 "Model not trained"

/-- Does `s` start with pattern `p`? (helper for Python's substring test). -/
def listStartsWith : List Char → List Char → Bool
  | [], _ => true
  | _ :: _, [] => false
  | p :: ps, c :: cs => p == c && listStartsWith ps cs

/-- Python's `pat in s` substring containment on lowered character lists. -/
def containsSub : List Char → List Char → Bool
  | s, pat =>
    match s with
    | [] => pat.isEmpty
    | _ :: rest => listStartsWith pat s || containsSub rest pat

/-- Keyword list of `has_error_kw` (app.py 400). -/
def errorKeywords : List (List Char) :=
  ["fail", "error", "timeout", "exception", "critical", "denied", "crash",
   "fatal"].map String.toList

/-- Keyword list of `has_db_kw` (app.py 401). -/
def dbKeywords : List (List Char) :=
  ["database", "sql", "query", "connection", "postgres", "db",
   "replicat"].map String.toList

/-- `msg.lower()` restricted to ASCII, matching every keyword the code tests. -/
def lowerStr (s : String) : List Char := s.toList.map Char.toLower

/-- Render an optional JSON field the way a Python f-string renders the
result of `log.get(key)` (absent → `None`). -/
def pyShow (o : Option String) : String :=
  match o with
  | some s => s
  | none => "None"

/-- The ordered rule list of the rule-based attribution fallback
(app.py 476-483): each fired rule appends `(feature, detail, weight)`;
if none fires the generic pattern-deviation cause is emitted. -/
def ruleBasedCauses (log : LogRecord) : List (String × String × ℚ) :=
  let lv := levelOrd (log.level.getD "INFO")
  let msg := log.message.getD ""
  let msgLower := lowerStr msg
  let hasErrKw := errorKeywords.any fun k => containsSub msgLower k
  let hasDbKw := dbKeywords.any fun k => containsSub msgLower k
  let causes :=
    (if lv ≥ 3 then
      [("Log Level",
        "Level is " ++ pyShow log.level ++ " (severity " ++ toString lv ++ "/4)",
        (2 : ℚ)/5)]
     else []) ++
    (if hasErrKw then
      [("Error Keywords", "Message contains error-related keywords", (3 : ℚ)/10)]
     else []) ++
    (if msg.length > 100 then
      [("Message Length",
        "Unusually long message (" ++ toString msg.length ++ " chars)",
        (1 : ℚ)/5)]
     else []) ++
    (if hasDbKw then
      [("Database Reference", "Message references database components",
        (1 : ℚ)/10)]
     else [])
  if causes.isEmpty then
    [("Unexpected Pattern", "Log pattern deviates from normal baseline",
      (1 : ℚ)/2)]
  else causes

/-- Result of the rule-based fallback branch of `/attribute`, keeping the
fields the claims inspect. -/
structure AttributionResult where
  primaryCause : String
  confidence : ℚ
  method : String
deriving DecidableEq

/-- The rule-based fallback response of `attribute_anomaly` (app.py 475-495):
`primary = causes[0]`, `primary_cause = primary[0]`,
`confidence = primary[2]`, `method = 'rule-based-fallback'`.
(`causes` is provably non-empty, so `headD` never takes its default.) -/
def attributeFallback (log : LogRecord) : AttributionResult :=
  let primary := (ruleBasedCauses log).headD ("", "", 0)
  { primaryCause := primary.1
    confidence := primary.2.2
    method := "rule-based-fallback" }

/-- The model registry (app.py 50-53): a single huggingface slot and a
name-indexed kaggle slot, artifacts opaque (`A`). -/
structure Registry (A : Type) where
  hf : Option A
  kg : String → Option A

/-- The registry value at process start: `{'huggingface': None, 'kaggle': {}}`. -/
def Registry.init (A : Type) : Registry A := ⟨none, fun _ => none⟩

/-- One registry-relevant request outcome: a huggingface training run that
reaches the success write at app.py 773, a huggingface run that fails
anywhere before it, likewise for the kaggle write at app.py 1072, or a
read-only call (`/classify-log`, `/predict`, ...), which never touches the
registry. -/
inductive TrainEvent (A : Type) where
  | hfSuccess (art : A)
  | hfFailure
  | kgSuccess (name : String) (art : A)
  | kgFailure
  | readOp

/-- Effect of one event on the registry: successful runs overwrite their
slot unconditionally (app.py 773, 1072); nothing else writes and nothing
ever clears a slot. -/
def regStep (r : Registry A) : TrainEvent A → Registry A
  | .hfSuccess a => { r with hf := some a }
  | .kgSuccess n a => { r with kg := fun m => if m = n then some a else r.kg m }
  | _ => r

/-- Run a whole trace of events against the registry. -/
def regRun (r : Registry A) (es : List (TrainEvent A)) : Registry A :=
  es.foldl regStep r

/-- Modelled from the spec: the artifact of the last successful huggingface
training run in a trace, if any ("after N successful train calls on the
same slot, every subsequent classify/score call uses the Nth artifact"). -/
def lastHfWrite : List (TrainEvent A) → Option A
  | [] => none
  | e :: es =>
    match lastHfWrite es with
    | some a => some a
    | none => match e with | .hfSuccess a => some a | _ => none

/-- Modelled from the spec: the artifact of the last successful kaggle
training run for a given model name in a trace, if any. -/
def lastKgWrite (n : String) : List (TrainEvent A) → Option A
  | [] => none
  | e :: es =>
    match lastKgWrite n es with
    | some a => some a
    | none =>
      match e with
      | .kgSuccess m a => if n = m then some a else none
      | _ => none

/-- Modelled from the spec: the per-record anomaly score of the scoring
contract — "the mean over the feature dimensions of the squared difference
between the normalized vector and the model's reconstruction", one score per
record in order. -/
def specScores (m : MLModel) (fm : Features) (logs : List LogRecord) : List ℚ :=
  logs.map fun r =>
    mseRow (divFeatures (encodeRecord r) fm) (m (divFeatures (encodeRecord r) fm))

/-- A fit oracle whose fit step succeeds (identity reconstruction, zero
scores). -/
def fsNoRaise : FitSpec :=
  { fresh := fun v => v
    raises := false
    fitted := fun v => v
    scoreSamples := fun l => l.map fun _ => 0
    lossLast := 0
    histValLoss := fun _ => none }

/-- A fit oracle whose fit step raises. -/
def fsRaise : FitSpec := { fsNoRaise with raises := true }

/-- Two concrete log records (INFO/"ab" and ERROR/"abcd"), encoding to the
feature rows (1,0,2) and (3,1,4). -/
def exLogs2 : List LogRecord :=
  [{ level := some "INFO", source := some "api-gateway", message := some "ab" },
   { level := some "ERROR", source := some "user-service", message := some "abcd" }]

/-- One concrete log record, encoding to the feature row (1,0,2). -/
def exLog1 : LogRecord :=
  { level := some "INFO", source := some "api-gateway", message := some "ab" }

/-- Zipping a list with its own image under a map pairs each element with
its image. -/
theorem zip_self_map {α β : Type} (l : List α) (g : α → β) :
    l.zip (l.map g) = l.map fun a => (a, g a) := by
  induction l with
  | nil => rfl
  | cons x xs ih => simp [ih]

/-- Claim C1: fit-quality classification is a pure function of train loss,
validation loss and backend, equal to the spec's rule — "Overfitting" when
`val_loss > 1.5 * train_loss`, otherwise "Underfitting" when `train_loss`
exceeds the backend ceiling (0.1 TensorFlow / 0.5 isolation-forest
fallback), otherwise "Balanced", with the overfitting check taking
priority. -/
theorem C1_fit_quality_matches_spec (t v : ℚ) :
    classifyFitTensorflow t v = fitQualitySpec .tensorflow t v ∧
    classifyFitSklearn t v = fitQualitySpec .sklearn t v := by
  constructor <;>
    simp only [classifyFitTensorflow, classifyFitSklearn, fitQualitySpec,
      mul_comm]

/-- Claim C2, counterexample: a call on the numeric path with an empty
records list is NOT answered with the input-invalid error — the
`logs is None` guard (app.py 651) lets `[]` through, and the call fails
later inside `np.max` with a generic 500 error. -/
theorem C2_empty_not_input_invalid :
    (trainNumeric ⟨none, none⟩ (some []) false fsNoRaise).1 =
      .internalError ∧
    (trainNumeric ⟨none, none⟩ (some []) false fsNoRaise).1 ≠
      .badRequest "No logs provided" := by
  exact ⟨rfl, by decide⟩

/-- Claim C2 as amended: on the numeric path a `null` records input is
rejected with the input-invalid error and no state change; an *empty list*
records input instead slips past the guard and is answered with a generic
500 internal error raised by `np.max` of an empty array — and in both
cases no fit is attempted (the outcome is independent of the fit oracle)
and the scoring state is left unchanged. -/
theorem C2_empty_records_behavior (st : GState) (tfAvail : Bool)
    (fs fs' : FitSpec) :
    trainNumeric st none tfAvail fs = (.badRequest "No logs provided", st) ∧
    (trainNumeric st (some []) tfAvail fs).1 = .internalError ∧
    (trainNumeric st (some []) tfAvail fs).2 = st ∧
    trainNumeric st (some []) tfAvail fs =
      trainNumeric st (some []) tfAvail fs' :=
  ⟨rfl, rfl, rfl, rfl⟩

/-- Claim C7: scoring a non-empty records list while no trained artifact is
active (no model or no normalization profile) returns the zero/placeholder
result (`mean_score` 0, message 'Model not trained'), not an error. -/
theorem C7_placeholder_when_untrained (st : GState) (logs : List LogRecord)
    (hne : logs ≠ []) (h : st.model = none ∨ st.feature_max = none) :
    predict st logs = .placeholder 0 "Model not trained" := by
  obtain ⟨om, ofm⟩ := st
  simp only [predict, if_neg hne]
  rcases h with h | h <;> simp only at h <;> subst h
  · rfl
  · cases om <;> rfl

/-- Witness for C7 at a concrete state and record list. -/
theorem C7_placeholder_when_untrained_witness :
    predict ⟨none, some ⟨1, 1, 2⟩⟩ [exLog1] =
      .placeholder 0 "Model not trained" :=
  C7_placeholder_when_untrained ⟨none, some ⟨1, 1, 2⟩⟩ [exLog1]
    (by decide) (Or.inl rfl)

/-- Claim C10: scoring an empty records list is rejected with the
input-invalid error 'No logs provided' before any model lookup, whatever
the registered state — the placeholder is never returned for empty
input. -/
theorem C10_empty_scoring_rejected (st : GState) :
    predict st [] = .badRequest "No logs provided" := rfl

/-- Claim C3, counterexample: a numeric training call whose fit step raises
does surface a training failure, but it does NOT leave the scoring state
untouched — `feature_max` was already overwritten (app.py 794) before the
fit ran, so the old normalization profile `(5,5,5)` is gone. -/
theorem C3_fit_failure_mutates_state :
    (trainNumeric ⟨none, some ⟨5, 5, 5⟩⟩ (some exLogs2) false fsRaise).1 =
      .internalError ∧
    (trainNumeric ⟨none, some ⟨5, 5, 5⟩⟩ (some exLogs2) false fsRaise).2.feature_max ≠
      some ⟨5, 5, 5⟩ := by
  exact ⟨rfl, by decide⟩

/-- Claim C3 as amended: when the fit step of the numeric path raises, the
exception is caught and surfaced as a 500 training failure, but the state
scoring reads is not preserved: `feature_max` already holds the new profile
(app.py 794-795) and `model` the freshly constructed unfit object
(app.py 804 / 849), for either backend branch. -/
theorem C3_fit_failure_surfaced_state_overwritten (st : GState)
    (logs : List LogRecord) (tfAvail : Bool) (fs : FitSpec) (rawMax : Features)
    (hmax : npMaxAxis0 (preprocess_logs logs) = some rawMax)
    (hraise : fs.raises = true) :
    trainNumeric st (some logs) tfAvail fs =
      (.internalError, ⟨some fs.fresh, some (replaceZeros rawMax)⟩) := by
  simp only [trainNumeric, hmax, hraise]
  cases tfAvail <;> rfl

/-- Witness for the amended C3 at a concrete state, records and oracle. -/
theorem C3_fit_failure_witness :
    npMaxAxis0 (preprocess_logs exLogs2) = some ⟨3, 1, 4⟩ ∧
    fsRaise.raises = true ∧
    trainNumeric ⟨none, some ⟨5, 5, 5⟩⟩ (some exLogs2) true fsRaise =
      (.internalError, ⟨some fsRaise.fresh, some (replaceZeros ⟨3, 1, 4⟩)⟩) :=
  ⟨by decide, rfl,
    C3_fit_failure_surfaced_state_overwritten ⟨none, some ⟨5, 5, 5⟩⟩ exLogs2
      true fsRaise ⟨3, 1, 4⟩ (by decide) rfl⟩

/-- Claim C5, counterexample: with 2 records (fewer than 5) the validation
split is NOT empty — `int(2 * 0.8) = 1`, so one vector lands in the
validation set; the "validation empty below ~5 records" reading is
false. -/
theorem C5_small_input_validation_nonempty :
    (splitTrainVal [⟨1, 0, 2⟩, ⟨3, 1, 4⟩]).2 ≠ ([] : List Features) ∧
    ([(⟨1, 0, 2⟩ : Features), ⟨3, 1, 4⟩]).length < 5 := by
  exact ⟨by decide, by decide⟩

/-- Claim C5 as amended: the encoded vectors are split in record order with
no shuffling, the training set being the first `⌊0.8·n⌋` vectors and the
validation set the remainder; the loss computation does reuse the train
loss whenever the validation split is empty (app.py 809), but that split
is empty only for `n = 0` — for every non-empty input the validation set
is non-empty, so the reuse branch is never reached with fewer than ~5
records. -/
theorem C5_split_order_and_val_reuse (xs : List Features)
    (g : List Features → List ℚ) (xTr : List Features) :
    (splitTrainVal xs).1 = xs.take ((4 * xs.length) / 5) ∧
    (splitTrainVal xs).2 = xs.drop ((4 * xs.length) / 5) ∧
    (splitTrainVal xs).1 ++ (splitTrainVal xs).2 = xs ∧
    (splitTrainVal xs).1.length = (4 * xs.length) / 5 ∧
    ((splitTrainVal xs).2 = [] ↔ xs = []) ∧
    (sklearnLosses g xTr []).2 = (sklearnLosses g xTr []).1 := by
  refine ⟨rfl, rfl, List.take_append_drop _ _, ?_, ?_, rfl⟩
  · simp only [splitTrainVal, List.length_take]
    omega
  · rw [show (splitTrainVal xs).2 = xs.drop ((4 * xs.length) / 5) from rfl,
      List.drop_eq_nil_iff, ← List.length_eq_zero]
    omega

/-- Claim C6: with an active model and profile, scoring a non-empty records
list yields per-record scores equal to the mean over the three feature
dimensions of the squared normalized-vs-reconstruction difference, an
aggregate `mean_score` equal to the arithmetic mean of those scores, and a
`high_risk_count` equal to the number of records scoring strictly above
0.1. -/
theorem C6_scoring_formulas (st : GState) (logs : List LogRecord)
    (m : MLModel) (fm : Features) (hne : logs ≠ [])
    (hm : st.model = some m) (hf : st.feature_max = some fm) :
    predict st logs =
      .analysis ((specScores m fm logs).sum / (logs.length : ℚ))
        ((specScores m fm logs).countP fun s => decide ((1 : ℚ)/10 < s))
        logs.length (specScores m fm logs) "tf-autoencoder-v1" := by
  obtain ⟨om, ofm⟩ := st
  simp only at hm hf
  subst hm
  subst hf
  simp only [predict, if_neg hne]
  rw [zip_self_map]
  simp [specScores, listMean, preprocess_logs, List.map_map, Function.comp_def,
    ← List.countP_eq_length_filter]

/-- Witness for C6 at a concrete state and record list: an identity
reconstruction model scores every record 0, so the mean is 0 and no record
is high-risk. -/
theorem C6_scoring_witness :
    predict ⟨some (fun v => v), some ⟨1, 1, 1⟩⟩ [exLog1] =
      .analysis 0 0 1 [0] "tf-autoencoder-v1" := by
  have h := C6_scoring_formulas ⟨some (fun v => v), some ⟨1, 1, 1⟩⟩ [exLog1]
    (fun v => v) ⟨1, 1, 1⟩ (by decide) rfl rfl
  rw [h]
  norm_num [specScores, exLog1, encodeRecord, divFeatures, mseRow, levelOrd,
    sourceOrd]

/-- A concrete FATAL record whose message contains "timeout". -/
def exFatalLog : LogRecord :=
  { level := some "FATAL", source := some "api-gateway",
    message := some "Upstream timeout while connecting" }

/-- Claim C4, counterexample: on a FATAL record with "timeout" in the
message, the rule-based fallback's primary cause is the log-level feature,
but its confidence is the severe-level rule's fixed weight 0.4 — not
strictly greater than 0.5 as claimed. -/
theorem C4_confidence_not_above_half :
    containsSub (lowerStr (exFatalLog.message.getD "")) "timeout".toList = true ∧
    (attributeFallback exFatalLog).primaryCause = "Log Level" ∧
    (attributeFallback exFatalLog).confidence = 2/5 ∧
    ¬ ((attributeFallback exFatalLog).confidence > 1/2) := by
  refine ⟨by decide, rfl, rfl, ?_⟩
  show ¬ ((2 : ℚ)/5 > 1/2)
  norm_num

/-- Claim C4 as amended: for every record with level FATAL (whether or not
the message also contains "timeout"), the rule-based fallback returns the
log-level feature as primary cause, with confidence exactly 0.4 (the fixed
weight of the severe-level rule), under the rule-based-fallback method
tag. -/
theorem C4_fatal_timeout_rule_fallback (log : LogRecord)
    (hlvl : log.level = some "FATAL")
    (_htimeout : containsSub (lowerStr (log.message.getD "")) "timeout".toList
      = true) :
    (attributeFallback log).primaryCause = "Log Level" ∧
    (attributeFallback log).confidence = 2/5 ∧
    (attributeFallback log).method = "rule-based-fallback" := by
  have h4 : levelOrd ((some "FATAL" : Option String).getD "INFO") = 4 := rfl
  simp only [attributeFallback, ruleBasedCauses, hlvl, h4]
  norm_num

/-- Witness for the amended C4 at the concrete FATAL/timeout record. -/
theorem C4_fatal_timeout_rule_fallback_witness :
    (attributeFallback exFatalLog).primaryCause = "Log Level" ∧
    (attributeFallback exFatalLog).confidence = 2/5 ∧
    (attributeFallback exFatalLog).method = "rule-based-fallback" :=
  C4_fatal_timeout_rule_fallback exFatalLog rfl (by decide)

/-- Modelled from the spec: per-column maximum ("any resulting zero is
replaced by 1"), computed by an independent right fold — valid for the
nonnegative columns the feature encoder produces. -/
def specFitCol (col : List ℚ) : ℚ :=
  if col.foldr max 0 = 0 then 1 else col.foldr max 0

/-- Anything below the seed is below the column fold. -/
theorem le_colMax_of_le (a b : ℚ) (l : List ℚ) (h : a ≤ b) :
    a ≤ colMax b l := by
  induction l generalizing b with
  | nil => exact h
  | cons x xs ih => exact ih (max b x) (le_trans h (le_max_left b x))

/-- The seed is below the column fold. -/
theorem self_le_colMax (a : ℚ) (l : List ℚ) : a ≤ colMax a l :=
  le_colMax_of_le a a l le_rfl

/-- Every column entry is below the column fold. -/
theorem mem_le_colMax (a x : ℚ) (l : List ℚ) (hx : x ∈ l) :
    x ≤ colMax a l := by
  induction l generalizing a with
  | nil => cases hx
  | cons y ys ih =>
    rcases List.mem_cons.mp hx with h | h
    · subst h
      exact le_colMax_of_le x (max a x) ys (le_max_right a x)
    · exact ih (max a y) h

/-- On a nonnegative column, the seeded left fold of `max` agrees with the
right fold of `max` over the whole column seeded with 0. -/
theorem colMax_eq_foldr (a : ℚ) (l : List ℚ) (ha : 0 ≤ a)
    (hl : ∀ x ∈ l, 0 ≤ x) : colMax a l = (a :: l).foldr max 0 := by
  induction l generalizing a with
  | nil => simpa [colMax] using (max_eq_left ha).symm
  | cons x xs ih =>
    have hax : 0 ≤ max a x := le_trans ha (le_max_left a x)
    have h := ih (max a x) hax fun y hy => hl y (List.mem_cons_of_mem x hy)
    simp only [colMax, List.foldl_cons] at h ⊢
    rw [h]
    simp only [List.foldr_cons]
    rw [max_assoc]

/-- Every feature row the encoder produces has nonnegative entries. -/
theorem preprocess_mem_nonneg (logs : List LogRecord) (w : Features)
    (hw : w ∈ preprocess_logs logs) :
    0 ≤ w.lvl ∧ 0 ≤ w.src ∧ 0 ≤ w.len := by
  simp only [preprocess_logs, List.mem_map] at hw
  obtain ⟨r, _, rfl⟩ := hw
  exact ⟨Nat.cast_nonneg _, Nat.cast_nonneg _, Nat.cast_nonneg _⟩

/-- One column of the fitted profile: it agrees with the spec's rendering,
bounds every entry's magnitude, and is strictly positive. -/
theorem fitCol_props (a : ℚ) (l : List ℚ) (ha : 0 ≤ a)
    (hl : ∀ x ∈ l, 0 ≤ x) :
    (if colMax a l = 0 then 1 else colMax a l) = specFitCol (a :: l) ∧
    (∀ x ∈ a :: l, |x| ≤ if colMax a l = 0 then 1 else colMax a l) ∧
    (0 < if colMax a l = 0 then 1 else colMax a l) := by
  have h0 : 0 ≤ colMax a l := le_colMax_of_le 0 a l ha
  refine ⟨?_, ?_, ?_⟩
  · rw [specFitCol, colMax_eq_foldr a l ha hl]
  · intro x hx
    have hx0 : 0 ≤ x := by
      rcases List.mem_cons.mp hx with h | h
      · exact h ▸ ha
      · exact hl x h
    have hle : x ≤ colMax a l := by
      rcases List.mem_cons.mp hx with h | h
      · exact h ▸ self_le_colMax a l
      · exact mem_le_colMax a x l h
    rw [abs_of_nonneg hx0]
    by_cases hz : colMax a l = 0
    · rw [if_pos hz]
      rw [hz] at hle
      linarith
    · rw [if_neg hz]
      exact hle
  · by_cases hz : colMax a l = 0
    · rw [if_pos hz]
      norm_num
    · rw [if_neg hz]
      exact lt_of_le_of_ne h0 (Ne.symm hz)

/-- Division by a positive bound of the magnitude lands in [-1, 1]. -/
theorem div_bounds (p x : ℚ) (hp : 0 < p) (hx : |x| ≤ p) :
    -1 ≤ x / p ∧ x / p ≤ 1 := by
  obtain ⟨hlo, hhi⟩ := abs_le.mp hx
  constructor
  · rw [le_div_iff₀ hp]
    linarith
  · rw [div_le_one hp]
    exact hhi

/-- Claim C8: fitting the normalizer on a non-empty batch of encoded
vectors yields, per column, the column maximum with zeros replaced by 1
(which is the maximum magnitude bound, since encoder outputs are
nonnegative); every profile entry is strictly positive and at least the
maximum magnitude seen in its column; and dividing any vector whose
entries stay within the profile in magnitude yields values in [-1, 1]. -/
theorem C8_normalizer_profile (logs : List LogRecord) (rawMax v : Features)
    (hmax : npMaxAxis0 (preprocess_logs logs) = some rawMax) :
    ((replaceZeros rawMax).lvl =
        specFitCol ((preprocess_logs logs).map Features.lvl) ∧
      (replaceZeros rawMax).src =
        specFitCol ((preprocess_logs logs).map Features.src) ∧
      (replaceZeros rawMax).len =
        specFitCol ((preprocess_logs logs).map Features.len)) ∧
    (∀ w ∈ preprocess_logs logs,
      |w.lvl| ≤ (replaceZeros rawMax).lvl ∧
      |w.src| ≤ (replaceZeros rawMax).src ∧
      |w.len| ≤ (replaceZeros rawMax).len) ∧
    (0 < (replaceZeros rawMax).lvl ∧ 0 < (replaceZeros rawMax).src ∧
      0 < (replaceZeros rawMax).len) ∧
    ((|v.lvl| ≤ (replaceZeros rawMax).lvl →
        -1 ≤ v.lvl / (replaceZeros rawMax).lvl ∧
          v.lvl / (replaceZeros rawMax).lvl ≤ 1) ∧
      (|v.src| ≤ (replaceZeros rawMax).src →
        -1 ≤ v.src / (replaceZeros rawMax).src ∧
          v.src / (replaceZeros rawMax).src ≤ 1) ∧
      (|v.len| ≤ (replaceZeros rawMax).len →
        -1 ≤ v.len / (replaceZeros rawMax).len ∧
          v.len / (replaceZeros rawMax).len ≤ 1)) := by
  cases hX : preprocess_logs logs with
  | nil =>
    rw [hX] at hmax
    exact absurd hmax (by simp [npMaxAxis0])
  | cons x xs =>
    rw [hX] at hmax
    simp only [npMaxAxis0, Option.some.injEq] at hmax
    have hnn : ∀ w ∈ x :: xs, 0 ≤ w.lvl ∧ 0 ≤ w.src ∧ 0 ≤ w.len := by
      intro w hw
      exact preprocess_mem_nonneg logs w (hX ▸ hw)
    have hx0 := hnn x (List.mem_cons_self x xs)
    have hLvl := fitCol_props x.lvl (xs.map Features.lvl) hx0.1
      (by
        intro q hq
        obtain ⟨w, hw, rfl⟩ := List.mem_map.mp hq
        exact (hnn w (List.mem_cons_of_mem x hw)).1)
    have hSrc := fitCol_props x.src (xs.map Features.src) hx0.2.1
      (by
        intro q hq
        obtain ⟨w, hw, rfl⟩ := List.mem_map.mp hq
        exact (hnn w (List.mem_cons_of_mem x hw)).2.1)
    have hLen := fitCol_props x.len (xs.map Features.len) hx0.2.2
      (by
        intro q hq
        obtain ⟨w, hw, rfl⟩ := List.mem_map.mp hq
        exact (hnn w (List.mem_cons_of_mem x hw)).2.2)
    have hpl : (replaceZeros rawMax).lvl =
        if colMax x.lvl (xs.map Features.lvl) = 0 then 1
        else colMax x.lvl (xs.map Features.lvl) := by
      rw [← hmax]
      rfl
    have hps : (replaceZeros rawMax).src =
        if colMax x.src (xs.map Features.src) = 0 then 1
        else colMax x.src (xs.map Features.src) := by
      rw [← hmax]
      rfl
    have hpn : (replaceZeros rawMax).len =
        if colMax x.len (xs.map Features.len) = 0 then 1
        else colMax x.len (xs.map Features.len) := by
      rw [← hmax]
      rfl
    refine ⟨⟨?_, ?_, ?_⟩, ?_, ⟨?_, ?_, ?_⟩, ?_, ?_, ?_⟩
    · rw [hpl, List.map_cons]
      exact hLvl.1
    · rw [hps, List.map_cons]
      exact hSrc.1
    · rw [hpn, List.map_cons]
      exact hLen.1
    · intro w hw
      refine ⟨?_, ?_, ?_⟩
      · rw [hpl]
        exact hLvl.2.1 w.lvl (List.mem_cons.mpr (by
          rcases List.mem_cons.mp hw with h | h
          · exact Or.inl (by rw [h])
          · exact Or.inr (List.mem_map_of_mem Features.lvl h)))
      · rw [hps]
        exact hSrc.2.1 w.src (List.mem_cons.mpr (by
          rcases List.mem_cons.mp hw with h | h
          · exact Or.inl (by rw [h])
          · exact Or.inr (List.mem_map_of_mem Features.src h)))
      · rw [hpn]
        exact hLen.2.1 w.len (List.mem_cons.mpr (by
          rcases List.mem_cons.mp hw with h | h
          · exact Or.inl (by rw [h])
          · exact Or.inr (List.mem_map_of_mem Features.len h)))
    · rw [hpl]
      exact hLvl.2.2
    · rw [hps]
      exact hSrc.2.2
    · rw [hpn]
      exact hLen.2.2
    · intro hb
      exact div_bounds _ _ (by rw [hpl]; exact hLvl.2.2) hb
    · intro hb
      exact div_bounds _ _ (by rw [hps]; exact hSrc.2.2) hb
    · intro hb
      exact div_bounds _ _ (by rw [hpn]; exact hLen.2.2) hb

/-- Witness for C8 at a concrete batch: the message-length column maximum
2 is kept, the source column maximum 0 is replaced by 1, and the vector
entry -1 normalizes into [-1, 1]. -/
theorem C8_normalizer_profile_witness :
    npMaxAxis0 (preprocess_logs [exLog1]) = some ⟨1, 0, 2⟩ ∧
    0 < (replaceZeros ⟨1, 0, 2⟩).src ∧
    (-1 ≤ (-1 : ℚ) / (replaceZeros ⟨1, 0, 2⟩).src ∧
      (-1 : ℚ) / (replaceZeros ⟨1, 0, 2⟩).src ≤ 1) := by
  have h := C8_normalizer_profile [exLog1] ⟨1, 0, 2⟩ ⟨1, -1, 1⟩ (by decide)
  refine ⟨by decide, h.2.2.1.2.1, h.2.2.2.2.1 (by norm_num [replaceZeros])⟩

/-- Running a trace from any start state yields, in the huggingface slot,
the last successful write of the trace, or the start value if none. -/
theorem regRun_hf (r : Registry A) (es : List (TrainEvent A)) :
    (regRun r es).hf =
      match lastHfWrite es with
      | some a => some a
      | none => r.hf := by
  induction es generalizing r with
  | nil => rfl
  | cons e es ih =>
    show (regRun (regStep r e) es).hf = _
    rw [ih]
    cases h : lastHfWrite es with
    | some a => simp [lastHfWrite, h]
    | none =>
      cases e <;> simp [lastHfWrite, h, regStep]

/-- Running a trace from any start state yields, in each kaggle slot, the
last successful write of the trace for that name, or the start value if
none. -/
theorem regRun_kg (r : Registry A) (n : String) (es : List (TrainEvent A)) :
    (regRun r es).kg n =
      match lastKgWrite n es with
      | some a => some a
      | none => r.kg n := by
  induction es generalizing r with
  | nil => rfl
  | cons e es ih =>
    show (regRun (regStep r e) es).kg n = _
    rw [ih]
    cases h : lastKgWrite n es with
    | some a => simp [lastKgWrite, h]
    | none =>
      cases e with
      | kgSuccess m a =>
        simp only [lastKgWrite, h, regStep]
        by_cases hnm : n = m <;> simp [hnm]
      | hfSuccess a => simp [lastKgWrite, h, regStep]
      | hfFailure => simp [lastKgWrite, h, regStep]
      | kgFailure => simp [lastKgWrite, h, regStep]
      | readOp => simp [lastKgWrite, h, regStep]

/-- Claim C9: every registry slot is empty at process start; only a
successful training run writes a slot (all other events leave it
untouched); a populated slot never becomes empty again; and after any
trace of interleaved calls, each slot holds exactly the artifact of the
last successful training run on it — so reads after N successful runs use
the Nth artifact, never an earlier one. -/
theorem C9_registry_monotonicity (A : Type) (es : List (TrainEvent A))
    (n : String) :
    (Registry.init A).hf = none ∧
    (Registry.init A).kg n = none ∧
    (∀ (r : Registry A) (e : TrainEvent A),
      (∀ a, e ≠ .hfSuccess a) → (regStep r e).hf = r.hf) ∧
    (∀ (r : Registry A) (e : TrainEvent A),
      (∀ a, e ≠ .kgSuccess n a) → (regStep r e).kg n = r.kg n) ∧
    (∀ (r : Registry A) (es' : List (TrainEvent A)) (a : A),
      r.hf = some a → ∃ b, (regRun r es').hf = some b) ∧
    (regRun (Registry.init A) es).hf = lastHfWrite es ∧
    (regRun (Registry.init A) es).kg n = lastKgWrite n es := by
  refine ⟨rfl, rfl, ?_, ?_, ?_, ?_, ?_⟩
  · intro r e h
    cases e with
    | hfSuccess a => exact absurd rfl (h a)
    | hfFailure => rfl
    | kgSuccess m a => rfl
    | kgFailure => rfl
    | readOp => rfl
  · intro r e h
    cases e with
    | kgSuccess m a =>
      by_cases hnm : n = m
      · exact absurd (hnm ▸ rfl) (h a)
      · simp [regStep, hnm]
    | hfSuccess a => rfl
    | hfFailure => rfl
    | kgFailure => rfl
    | readOp => rfl
  · intro r es' a ha
    rw [regRun_hf]
    cases h : lastHfWrite es' with
    | some b => exact ⟨b, rfl⟩
    | none => exact ⟨a, ha⟩
  · rw [regRun_hf]
    cases h : lastHfWrite es <;> rfl
  · rw [regRun_kg]
    cases h : lastKgWrite n es <;> rfl

/-- A concrete trace: two successful huggingface runs with a failure, a
kaggle run and a read interleaved. -/
def exTrace : List (TrainEvent ℕ) :=
  [.hfSuccess 1, .readOp, .kgSuccess "random_forest" 10, .hfFailure,
   .hfSuccess 2]

/-- Witness for C9 on the concrete trace: after two successful huggingface
runs the slot holds artifact 2 (the last one), the kaggle slot holds its
one artifact, a read leaves the fresh registry empty, and a populated slot
stays populated across the whole trace. -/
theorem C9_registry_monotonicity_witness :
    (regRun (Registry.init ℕ) exTrace).hf = some 2 ∧
    (regRun (Registry.init ℕ) exTrace).kg "random_forest" = some 10 ∧
    (regStep (Registry.init ℕ) .readOp).hf = none ∧
    (∃ b, (regRun ⟨some 7, fun _ => none⟩ exTrace).hf = some b) := by
  have h := C9_registry_monotonicity ℕ exTrace "random_forest"
  refine ⟨?_, ?_, ?_, ?_⟩
  · rw [h.2.2.2.2.2.1]
    rfl
  · rw [h.2.2.2.2.2.2]
    rfl
  · exact h.2.2.1 (Registry.init ℕ) .readOp fun a hc => by cases hc
  · exact h.2.2.2.2.1 ⟨some 7, fun _ => none⟩ exTrace 7 rfl

/-- Witness for C1 at the spec's own example (train 0.2, val 0.35 →
"Overfitting") and at an underfitting fallback point. -/
theorem C1_fit_quality_witness :
    fitQualitySpec .tensorflow (1/5) (7/20) = "Overfitting" ∧
    fitQualitySpec .sklearn (3/5) (1/2) = "Underfitting" := by
  have h1 := C1_fit_quality_matches_spec (1/5) (7/20)
  have h2 := C1_fit_quality_matches_spec (3/5) (1/2)
  constructor
  · rw [← h1.1]
    norm_num [classifyFitTensorflow]
  · rw [← h2.2]
    norm_num [classifyFitSklearn]

/-- Witness for the amended C2 at a concrete state and oracle. -/
theorem C2_empty_records_witness :
    trainNumeric ⟨none, none⟩ none false fsNoRaise =
      (.badRequest "No logs provided", ⟨none, none⟩) ∧
    (trainNumeric ⟨none, none⟩ (some []) false fsNoRaise).1 =
      .internalError :=
  ⟨(C2_empty_records_behavior ⟨none, none⟩ false fsNoRaise fsRaise).1,
   (C2_empty_records_behavior ⟨none, none⟩ false fsNoRaise fsRaise).2.1⟩

/-- Five concrete feature rows, for exercising the 80/20 split at n = 5. -/
def exList5 : List Features :=
  [⟨1, 0, 2⟩, ⟨3, 1, 4⟩, ⟨1, 0, 2⟩, ⟨3, 1, 4⟩, ⟨1, 0, 2⟩]

/-- Witness for the amended C5 at n = 5: four vectors train, one validates,
order preserved, and the empty-validation branch of the sklearn loss
computation reuses the train loss. -/
theorem C5_split_order_witness :
    (splitTrainVal exList5).1.length = 4 ∧
    (splitTrainVal exList5).1 ++ (splitTrainVal exList5).2 = exList5 ∧
    (sklearnLosses (fun l => l.map fun _ => 0) [] []).2 =
      (sklearnLosses (fun l => l.map fun _ => 0) [] []).1 := by
  have h := C5_split_order_and_val_reuse exList5 (fun l => l.map fun _ => 0) []
  refine ⟨by rw [h.2.2.2.1]; rfl, h.2.2.1, h.2.2.2.2.2⟩

/-- Witness for C10 at a state holding a trained artifact: the empty-input
rejection fires before the model lookup. -/
theorem C10_empty_scoring_witness :
    predict ⟨some (fun v => v), some ⟨1, 1, 1⟩⟩ [] =
      .badRequest "No logs provided" :=
  C10_empty_scoring_rejected ⟨some (fun v => v), some ⟨1, 1, 1⟩⟩

end Atherlog
